import Mathlib

/-!
Verification of the fao-samoa survey tool's core logic: the validation engine
(`utils/validators.py`), the production/boundary reconciliation engine
(`production_boundary_linking_demo.py`) and the polygon-area geometry engine
(`pages/1_Register_Crops.py`), shallowly embedded in Lean.

Python numbers are modelled as `ℚ` (exact arithmetic; the source's float
rounding is not modelled), geographic reals as `ℝ`.  Python `dict` payloads
become structures whose optional entries are `Option`s; a key that is absent
and a key stored as `None` behave identically under `dict.get`, so both are
modelled as `none`.  Python truthiness of the relevant value shapes is made
explicit below.
-/

/-! ## Python truthiness helpers -/

/-- Truthiness of an optional string, as Python sees `data.get(k)`:
`None` and the empty string are falsy. -/
def strTruthy : Option String → Bool
  | none => false
  | some s => s ≠ ""

/-- Truthiness of an optional number: `None` and `0` are falsy. -/
def numTruthy : Option ℚ → Bool
  | none => false
  | some q => q ≠ 0

/-! ## Character classes and anchored regex matches used by the validators -/

/-- Python `str.strip()`: drop leading and trailing whitespace, modelled over
the character list. -/
def pyStrip (s : String) : String :=
  ⟨((s.data.dropWhile Char.isWhitespace).reverse.dropWhile Char.isWhitespace).reverse⟩

/-- One character of `[a-zA-Z0-9\-_]`. -/
def isIdChar (c : Char) : Bool := c.isAlphanum || c = '-' || c = '_'

/-- Matches `re.match(r'^[a-zA-Z0-9\-_]+$', s)`: full match, at least one character. -/
def matchIdCharset (s : String) : Bool := !s.isEmpty && s.data.all isIdChar

/-- Matches `re.match(r'^[0-9]+$', s)`. -/
def matchDigits (s : String) : Bool := !s.isEmpty && s.data.all Char.isDigit

/-- Matches `re.match(r'^\d{4}/\d{2,4}$', s)`: four digits, a slash, then two to four
digits. -/
def matchSeasonYear (s : String) : Bool :=
  match s.data with
  | a :: b :: c :: d :: sep :: rest =>
      a.isDigit && b.isDigit && c.isDigit && d.isDigit && sep = '/' &&
      decide (2 ≤ rest.length) && decide (rest.length ≤ 4) && rest.all Char.isDigit
  | _ => false

/-- One character of `[a-zA-Z0-9\s\-_\.]` (field-name charset). -/
def isFieldNameChar (c : Char) : Bool :=
  c.isAlphanum || c.isWhitespace || c = '-' || c = '_' || c = '.'

/-- Matches `re.match(r'^[a-zA-Z0-9\s\-_\.]+$', s)`. -/
def matchFieldNameCharset (s : String) : Bool := !s.isEmpty && s.data.all isFieldNameChar

/-! ## Data model: form payloads -/

/-- The per-crop attribute bag stored under `crop_data[crop]`; only the keys
the validators and the linking engine read are modelled. -/
structure CropFormInfo where
  growth_mode : Option String := none
  banana_type : Option String := none
  other_crop_name : Option String := none
  qty_harvested : Option ℚ := none
  price_per_unit : Option ℚ := none
  area_acres : Option ℚ := none
  unit : Option String := none
deriving DecidableEq

/-- The production-form dictionary passed to `validate_form_data`.
`selected_crops` and `crop_data` default to their `data.get(k, default)`
fallbacks. -/
structure FormInput where
  farmer_id : Option String := none
  district : Option String := none
  village : Option String := none
  season_year : Option String := none
  ea_code : Option String := none
  selected_crops : List String := []
  crop_data : List (String × CropFormInfo) := []
deriving DecidableEq

/-- Lookup `crop_data.get(crop_type, {})`: first binding wins, missing key gives the
empty attribute bag. -/
def lookupCrop (cd : List (String × CropFormInfo)) (c : String) : CropFormInfo :=
  match cd.find? (fun p => p.1 = c) with
  | some p => p.2
  | none => {}

/-- Test `not data.get(field) or data[field] == "Select..." or data[field] == ""`. -/
def requiredMissing : Option String → Bool
  | none => true
  | some s => s = "" || s = "Select..."

/-! ## validate_form_data -/

/-- Required-field messages of `validate_form_data`, in the dictionary's
insertion order. -/
def productionRequiredErrors (d : FormInput) : List String :=
  (if requiredMissing d.farmer_id then ["Farmer ID is required"] else []) ++
  (if requiredMissing d.district then ["District is required"] else []) ++
  (if requiredMissing d.village then ["Village is required"] else []) ++
  (if requiredMissing d.season_year then ["Season/Year is required"] else [])

/-- The crop-specific required-field branch of `validate_form_data`
(the `if crop_type == ... elif ...` chain). -/
def cropSpecificErrors (crop_type : String) (ci : CropFormInfo) : List String :=
  if crop_type = "Coconut" then
    if ci.growth_mode = some "Select..." then ["Growth mode is required for " ++ crop_type] else []
  else if crop_type = "Cocoa" then
    if ci.growth_mode = some "Select..." then ["Growth mode is required for " ++ crop_type] else []
  else if crop_type = "Breadfruit" then
    if ci.growth_mode = some "Select..." then ["Growth mode is required for " ++ crop_type] else []
  else if crop_type = "Banana" then
    (if ci.banana_type = some "Select..." then ["Banana type is required for " ++ crop_type] else []) ++
    (if ci.growth_mode = some "Select..." then ["Growth mode is required for " ++ crop_type] else [])
  else if crop_type = "Other" then
    if ¬ strTruthy ci.other_crop_name then ["Crop name is required for " ++ crop_type] else []
  else []

/-- The shared production-field checks of `validate_form_data` for one crop:
quantity, price, area and unit rules. -/
def cropProductionErrors (crop_type : String) (ci : CropFormInfo) : List String :=
  (match ci.qty_harvested with
   | some q =>
       (if q < 0 then ["Quantity harvested cannot be negative for " ++ crop_type] else []) ++
       (if q > 1000000 then
          ["Quantity harvested seems unrealistic for " ++ crop_type ++ " (max 1,000,000)"] else [])
   | none => []) ++
  (match ci.price_per_unit with
   | some p =>
       (if p < 0 then ["Price per unit cannot be negative for " ++ crop_type] else []) ++
       (if p > 10000 then
          ["Price per unit seems unrealistic for " ++ crop_type ++ " (max $10,000)"] else [])
   | none => []) ++
  (match ci.area_acres with
   | some a =>
       if a > 0 then
         (if a > 10000 then
            ["Area in acres seems unrealistic for " ++ crop_type ++ " (max 10,000 acres)"] else [])
       else []
   | none => []) ++
  (if numTruthy ci.qty_harvested ∧ ci.qty_harvested.getD 0 > 0 then
     (if ci.unit = some "Select..." ∨ ¬ strTruthy ci.unit then
        ["Unit is required when quantity harvested is provided for " ++ crop_type] else [])
   else [])

/-- The full error list accumulated by `validate_form_data`, in rule
evaluation order. -/
def productionErrors (d : FormInput) : List String :=
  productionRequiredErrors d ++
  (if d.selected_crops.isEmpty then ["At least one crop must be selected"] else []) ++
  (if strTruthy d.farmer_id then
     (if (pyStrip (d.farmer_id.getD "")).length < 3 then
        ["Farmer ID must be at least 3 characters long"] else []) ++
     (if ¬ matchIdCharset (d.farmer_id.getD "") then
        ["Farmer ID can only contain letters, numbers, hyphens, and underscores"] else [])
   else []) ++
  (if strTruthy d.ea_code then
     (if ¬ matchDigits (d.ea_code.getD "") then ["EA Code must contain only numbers"] else [])
   else []) ++
  (if strTruthy d.season_year then
     (if ¬ matchSeasonYear (d.season_year.getD "") then
        ["Season/Year must be in format YYYY/YY or YYYY/YYYY (e.g., 2024/25)"] else [])
   else []) ++
  (d.selected_crops.flatMap (fun ct =>
     let ci := lookupCrop d.crop_data ct
     cropSpecificErrors ct ci ++ cropProductionErrors ct ci))

/-- Source `validate_form_data(data)`: accumulate all rule violations, then join with
a semicolon-space separator. -/
def validate_form_data (d : FormInput) : Bool × String :=
  let errors := productionErrors d
  if errors.isEmpty then (true, "Validation successful")
  else (false, String.intercalate "; " errors)

/-! ## validate_field_boundary -/

/-- The boundary-form dictionary passed to `validate_field_boundary`.
The ring itself is opaque here; only its length matters to this validator. -/
structure BoundaryInput where
  field_name : Option String := none
  field_type : Option String := none
  coordinates : Option (List (ℚ × ℚ)) := none
  area_estimate : Option ℚ := none
  notes : Option String := none
deriving DecidableEq

/-- Truthiness of an optional list: `None` and `[]` are falsy. -/
def listTruthy {α : Type} : Option (List α) → Bool
  | none => false
  | some l => !l.isEmpty

/-- The full error list accumulated by `validate_field_boundary`, in rule
evaluation order. -/
def boundaryErrors (d : BoundaryInput) : List String :=
  (if ¬ strTruthy d.field_name ∨ (pyStrip (d.field_name.getD "")).length < 1 then
     ["Field name is required"] else []) ++
  (if ¬ strTruthy d.field_type ∨ d.field_type = some "Select..." then
     ["Field type is required"] else []) ++
  (if ¬ listTruthy d.coordinates ∨ (d.coordinates.getD []).length < 3 then
     ["Field boundary must have at least 3 points"] else []) ++
  (if strTruthy d.field_name then
     (if (d.field_name.getD "").length > 100 then
        ["Field name must be less than 100 characters"] else []) ++
     (if ¬ matchFieldNameCharset (d.field_name.getD "") then
        ["Field name contains invalid characters"] else [])
   else []) ++
  (if numTruthy d.area_estimate then
     (if d.area_estimate.getD 0 ≤ 0 then ["Area estimate must be greater than 0"] else []) ++
     (if d.area_estimate.getD 0 > 10000 then
        ["Area estimate seems unrealistic (max 10,000 acres)"] else [])
   else []) ++
  (if strTruthy d.notes ∧ (d.notes.getD "").length > 500 then
     ["Notes must be less than 500 characters"] else [])

/-- Source `validate_field_boundary(data)`: accumulate all rule violations, then join. -/
def validate_field_boundary (d : BoundaryInput) : Bool × String :=
  let errors := boundaryErrors d
  if errors.isEmpty then (true, "Validation successful")
  else (false, String.intercalate "; " errors)

/-! ## validate_coordinates -/

/-- One element of the ring passed to `validate_coordinates`:
either a 2-element list whose entries convert with `float()` (carrying the
converted values, position 0 range-checked as latitude, position 1 as
longitude), or a shape failure (`isinstance`/length check), or a 2-element
list whose `float()` conversion raises. -/
inductive PyCoordElem where
  | nums (lat lng : ℚ)
  | badShape
  | badNums
deriving DecidableEq

/-- The argument of `validate_coordinates`: either not a Python list at all,
or a list of elements. -/
inductive CoordsInput where
  | notList
  | ofList (l : List PyCoordElem)
deriving DecidableEq

/-- The `for coord in coordinates` loop of `validate_coordinates`: returns at
the FIRST offending element, otherwise falls through to the success result. -/
def checkCoordElems : List PyCoordElem → Bool × String
  | [] => (true, "Coordinates are valid")
  | e :: rest =>
    match e with
    | .badShape => (false, "Each coordinate must have latitude and longitude")
    | .badNums => (false, "Coordinates must be valid numbers")
    | .nums lat lng =>
        if ¬(-90 ≤ lat ∧ lat ≤ 90) ∨ ¬(-180 ≤ lng ∧ lng ≤ 180) then
          (false, "Coordinates out of valid range")
        else checkCoordElems rest

/-- Source `validate_coordinates(coordinates)`: early-return checks in source order
(`not coordinates or not isinstance(coordinates, list)`, minimum length,
maximum length, then the per-element loop). -/
def validate_coordinates : CoordsInput → Bool × String
  | .notList => (false, "Invalid coordinates format")
  | .ofList l =>
    if l.isEmpty then (false, "Invalid coordinates format")
    else if l.length < 3 then (false, "Minimum 3 coordinate points required")
    else if l.length > 1000 then (false, "Too many coordinate points (max 1000)")
    else checkCoordElems l

/-! ## Spec-side rule predicates for the coordinate validator -/

/-- Modelled from the spec: one ring element is acceptable when it is a
2-tuple of numerics with latitude in `[-90, 90]` and longitude in
`[-180, 180]`. -/
def coord_elem_ok : PyCoordElem → Bool
  | .nums lat lng =>
      decide (-90 ≤ lat) && decide (lat ≤ 90) && decide (-180 ≤ lng) && decide (lng ≤ 180)
  | .badShape => false
  | .badNums => false

/-- Modelled from the spec: the ring is a list, its length is in `[3, 1000]`,
and every element is acceptable. -/
def coordinate_rules_ok : CoordsInput → Bool
  | .notList => false
  | .ofList l => decide (3 ≤ l.length) && decide (l.length ≤ 1000) && l.all coord_elem_ok

/-! ## Helper lemmas on the validators -/

/-- The element loop succeeds exactly when every element passes the
per-element rules. -/
theorem checkCoordElems_fst (l : List PyCoordElem) :
    (checkCoordElems l).1 = l.all coord_elem_ok := by
  induction l with
  | nil => rfl
  | cons e rest ih =>
    cases e with
    | nums lat lng =>
      simp only [checkCoordElems, List.all_cons, coord_elem_ok]
      split_ifs with h
      · rcases h with h | h <;> rcases not_and_or.mp h with h1 | h1 <;> simp [h1]
      · push_neg at h
        obtain ⟨⟨h1, h2⟩, h3, h4⟩ := h
        simp [h1, h2, h3, h4, ih]
    | badShape => simp [checkCoordElems, List.all_cons, coord_elem_ok]
    | badNums => simp [checkCoordElems, List.all_cons, coord_elem_ok]

/-- Function `validate_coordinates` accepts exactly the rings allowed by the spec's
rule list, even though it reports failures one at a time. -/
theorem validate_coordinates_fst (c : CoordsInput) :
    (validate_coordinates c).1 = coordinate_rules_ok c := by
  cases c with
  | notList => rfl
  | ofList l =>
    by_cases h0 : l.isEmpty
    · have : l.length = 0 := by simpa [List.isEmpty_iff_length_eq_zero] using h0
      simp [validate_coordinates, coordinate_rules_ok, h0, this]
    · by_cases h1 : l.length < 3
      · simp [validate_coordinates, coordinate_rules_ok, h0, h1, Nat.not_le.mpr h1]
      · by_cases h2 : l.length > 1000
        · simp [validate_coordinates, coordinate_rules_ok, h0, h1, h2, Nat.not_le.mpr h2]
        · simp [validate_coordinates, coordinate_rules_ok, h0, h1, h2,
            Nat.le_of_not_lt h1, Nat.le_of_not_lt h2, checkCoordElems_fst]

/-! ## Shared lemma: the accumulate-then-join result shape -/

/-- The `if errors: return False, "; ".join(errors) else: return True, ...`
tail shared by `validate_form_data` and `validate_field_boundary`. -/
theorem joinErrors_spec (errors : List String) :
    ((if errors.isEmpty then ((true, "Validation successful") : Bool × String)
        else (false, String.intercalate "; " errors)).1 = true ↔ errors = []) ∧
    (errors ≠ [] →
      (if errors.isEmpty then ((true, "Validation successful") : Bool × String)
        else (false, String.intercalate "; " errors)).2 = String.intercalate "; " errors) := by
  cases h : errors.isEmpty
  · have hne : errors ≠ [] := fun hnil => by simp [hnil] at h
    simp [h, hne]
  · simp [h, List.isEmpty_iff.mp h]

/-! ## Claims C5 to C8 -/

/-- C5 counterexample: this two-point ring violates both the minimum-length
rule and the latitude-range rule (its first point has latitude 95), yet the
report carries only the first rule's message — `validate_coordinates` stops at
the first violation instead of concatenating all violation messages. -/
theorem c5_counterexample_coordinates_fail_fast :
    validate_coordinates (.ofList [.nums 95 0, .nums 0 0]) =
      (false, "Minimum 3 coordinate points required") ∧
    coord_elem_ok (.nums 95 0) = false := by decide

/-- C5 (amended): `validate_form_data` and `validate_field_boundary` check
every applicable rule, accumulate all violation messages in rule-evaluation
order, join them into one report, and return ok exactly when no rule is
violated; `validate_coordinates` also returns ok exactly when all of its rules
hold, but it is fail-fast — on failure it reports only the first violated
rule's message. -/
theorem c5_error_accumulation :
    (∀ d : FormInput,
      ((validate_form_data d).1 = true ↔ productionErrors d = []) ∧
      (productionErrors d ≠ [] →
        (validate_form_data d).2 = String.intercalate "; " (productionErrors d))) ∧
    (∀ d : BoundaryInput,
      ((validate_field_boundary d).1 = true ↔ boundaryErrors d = []) ∧
      (boundaryErrors d ≠ [] →
        (validate_field_boundary d).2 = String.intercalate "; " (boundaryErrors d))) ∧
    (∀ c : CoordsInput, (validate_coordinates c).1 = coordinate_rules_ok c) :=
  ⟨fun d => joinErrors_spec (productionErrors d),
   fun d => joinErrors_spec (boundaryErrors d),
   validate_coordinates_fst⟩

/-- C5 witness: on the empty form every required-field rule fires and the
report is the join of all accumulated messages. -/
theorem c5_witness :
    (validate_form_data {}).2 = String.intercalate "; " (productionErrors {}) :=
  (c5_error_accumulation.1 {}).2 (by decide)

/-- C6: `validate_coordinates` accepts only rings given as lists of 3 to 1000
points each of which is a numeric pair with latitude in `[-90, 90]` and
longitude in `[-180, 180]` (so any non-list input, bad length, malformed
element or out-of-range point is rejected); concretely it rejects a ring with
a latitude-95 point and accepts a ring of points at latitude -13.9,
longitude 171.75. -/
theorem c6_validate_coordinates_rules :
    (∀ l : List PyCoordElem, (validate_coordinates (.ofList l)).1 = true →
        3 ≤ l.length ∧ l.length ≤ 1000 ∧ ∀ e ∈ l, coord_elem_ok e = true) ∧
    (validate_coordinates .notList).1 = false ∧
    (validate_coordinates (.ofList [.nums 95 0, .nums 0 0, .nums 1 1])).1 = false ∧
    (validate_coordinates
      (.ofList [.nums (-139/10) (17175/100), .nums (-139/10) (17175/100),
        .nums (-139/10) (17175/100)])).1 = true := by
  refine ⟨fun l h => ?_, by decide, by decide,
    by norm_num [validate_coordinates, checkCoordElems]⟩
  rw [validate_coordinates_fst] at h
  simp only [coordinate_rules_ok, Bool.and_eq_true, decide_eq_true_eq,
    List.all_eq_true] at h
  tauto

/-- C6 witness: the accepted Samoa-like ring indeed has an in-range length and
only acceptable elements. -/
theorem c6_witness :
    3 ≤ ([PyCoordElem.nums (-139/10) (17175/100), .nums (-139/10) (17175/100),
        .nums (-139/10) (17175/100)]).length ∧
    ([PyCoordElem.nums (-139/10) (17175/100), .nums (-139/10) (17175/100),
        .nums (-139/10) (17175/100)]).length ≤ 1000 ∧
    ∀ e ∈ ([PyCoordElem.nums (-139/10) (17175/100), .nums (-139/10) (17175/100),
        .nums (-139/10) (17175/100)]), coord_elem_ok e = true :=
  c6_validate_coordinates_rules.1 _
    (by norm_num [validate_coordinates, checkCoordElems])

/-- A fully populated, well-formed production form. -/
def goodForm : FormInput where
  farmer_id := some "F-001"
  district := some "Upolu"
  village := some "Vaiala"
  season_year := some "2024/25"
  selected_crops := ["Kava"]
  crop_data := [("Kava", {})]

/-- C7: the fully populated, well-formed record validates, and removing
(`none`) or blanking (`""`, or `[]` for the crop set) any one required field
flips the result to false with that field's message as the report. -/
theorem c7_validate_production_required_fields :
    validate_form_data goodForm = (true, "Validation successful") ∧
    validate_form_data { goodForm with farmer_id := none } =
      (false, "Farmer ID is required") ∧
    validate_form_data { goodForm with farmer_id := some "" } =
      (false, "Farmer ID is required") ∧
    validate_form_data { goodForm with district := none } =
      (false, "District is required") ∧
    validate_form_data { goodForm with district := some "" } =
      (false, "District is required") ∧
    validate_form_data { goodForm with village := none } =
      (false, "Village is required") ∧
    validate_form_data { goodForm with village := some "" } =
      (false, "Village is required") ∧
    validate_form_data { goodForm with season_year := none } =
      (false, "Season/Year is required") ∧
    validate_form_data { goodForm with season_year := some "" } =
      (false, "Season/Year is required") ∧
    validate_form_data { goodForm with selected_crops := [], crop_data := [] } =
      (false, "At least one crop must be selected") := by decide

/-- A well-formed boundary form whose `area_estimate` is present and zero. -/
def boundaryFormArea0 : BoundaryInput where
  field_name := some "North Field"
  field_type := some "Cropland"
  coordinates := some [(0, 0), (1, 0), (0, 1)]
  area_estimate := some 0

/-- C8 counterexample: an `area_estimate` of `0` is present and not strictly
positive, yet the record validates — the source guards the area rules with
Python truthiness (`if data.get('area_estimate'):`), which skips `0`. -/
theorem c8_counterexample_area_zero_passes :
    boundaryFormArea0.area_estimate = some 0 ∧
    validate_field_boundary boundaryFormArea0 = (true, "Validation successful") := by
  decide

/-- C8 (amended): for a present **nonzero** `area_estimate`, validation passes
only if `0 < area ≤ 10000`, and a nonzero area outside that range always fails
validation; a present area of exactly `0` slips past the truthiness guard. -/
theorem c8_area_estimate_range :
    ∀ (d : BoundaryInput) (a : ℚ), d.area_estimate = some a → a ≠ 0 →
      ((validate_field_boundary d).1 = true → 0 < a ∧ a ≤ 10000) ∧
      ((a < 0 ∨ 10000 < a) → (validate_field_boundary d).1 = false) := by
  intro d a ha hz
  have htr : numTruthy (some a) = true := by simp [numTruthy, hz]
  have key : ∀ _ : a ≤ 0 ∨ 10000 < a, boundaryErrors d ≠ [] := by
    rintro (hle | hgt)
    · have hm : "Area estimate must be greater than 0" ∈ boundaryErrors d := by
        simp [boundaryErrors, ha, htr, hle]
      exact List.ne_nil_of_mem hm
    · have hm : "Area estimate seems unrealistic (max 10,000 acres)" ∈ boundaryErrors d := by
        simp [boundaryErrors, ha, htr, hgt]
      exact List.ne_nil_of_mem hm
  constructor
  · intro h
    have hnil : boundaryErrors d = [] := (joinErrors_spec (boundaryErrors d)).1.mp h
    by_contra hcon
    push_neg at hcon
    rcases lt_trichotomy a 0 with h0 | h0 | h0
    · exact key (Or.inl h0.le) hnil
    · exact hz h0
    · exact key (Or.inr (hcon h0)) hnil
  · intro hbad
    have hne := key (hbad.imp le_of_lt id)
    cases h : (validate_field_boundary d).1
    · rfl
    · exact absurd ((joinErrors_spec (boundaryErrors d)).1.mp h) hne

/-- A well-formed boundary form with `area_estimate = 5`. -/
def boundaryFormArea5 : BoundaryInput where
  field_name := some "North Field"
  field_type := some "Cropland"
  coordinates := some [(0, 0), (1, 0), (0, 1)]
  area_estimate := some 5

/-- C8 witness: the amended rule applied at a concrete validating record with
area 5. -/
theorem c8_witness : 0 < (5 : ℚ) ∧ (5 : ℚ) ≤ 10000 :=
  (c8_area_estimate_range boundaryFormArea5 5 rfl (by decide)).1 (by decide)

/-! ## Data model: the store read by the linking engine
(`production_boundary_linking_demo.py`) -/

/-- The parsed `form_data` JSON object; only the keys the engine reads are
modelled (`selected_crops`, `crop_data`, with `.get` defaults). -/
structure FormPayload where
  selected_crops : List String := []
  crop_data : List (String × CropFormInfo) := []
deriving DecidableEq

/-- One `form_responses` row as read by the linker (`farmer_id`, `form_data`,
`season_year`, `submission_date`).  The serialized `form_data` payload is
modelled by its parse result: `none` models a stored payload on which
`json.loads` raises `JSONDecodeError`. -/
structure FormResponse where
  farmer_id : String
  form_data : Option FormPayload
  season_year : String
  submission_date : String
deriving DecidableEq

/-- One `field_boundaries` row.  The serialized ring is opaque to the linker
(it is parsed but only carried along), so it is kept as a raw string here. -/
structure Boundary where
  id : Nat
  field_name : String
  field_type : String
  coordinates : Option String := none
  area_estimate : Option ℚ := none
  notes : Option String := none
  creation_date : Nat
  crop_type : String
  farmer_id : String
deriving DecidableEq

/-- The two independent tables of the store. -/
structure DB where
  form_responses : List FormResponse
  field_boundaries : List Boundary
deriving DecidableEq

/-- The crop-specific production slice returned by
`get_crop_production_data`: the crop's attribute bag updated with the row's
`season_year`, `submission_date`, `farmer_id` and `crop_type`. -/
structure ProductionData where
  qty_harvested : Option ℚ
  unit : Option String
  price_per_unit : Option ℚ
  season_year : String
  submission_date : String
  farmer_id : String
  crop_type : String
deriving DecidableEq

/-- Source `get_crop_production_data(farmer_id, crop_type)`: `fetchone()` on
`SELECT ... WHERE farmer_id = ?` takes the FIRST stored row for that farmer
(in store order); a payload that fails to parse or lacks the crop in
`crop_data` gives `None`. -/
def get_crop_production_data (db : DB) (farmer_id crop_type : String) :
    Option ProductionData :=
  match (db.form_responses.filter (fun r => r.farmer_id = farmer_id)).head? with
  | none => none
  | some r =>
    match r.form_data with
    | none => none
    | some fd =>
      match fd.crop_data.find? (fun p => p.1 = crop_type) with
      | none => none
      | some p =>
        some { qty_harvested := p.2.qty_harvested, unit := p.2.unit,
               price_per_unit := p.2.price_per_unit,
               season_year := r.season_year, submission_date := r.submission_date,
               farmer_id := farmer_id, crop_type := crop_type }

/-- Source `get_field_boundaries_for_crop(farmer_id, crop_type)`: the matching rows,
`ORDER BY creation_date`. -/
def get_field_boundaries_for_crop (db : DB) (farmer_id crop_type : String) :
    List Boundary :=
  (db.field_boundaries.filter
      (fun b => b.farmer_id = farmer_id ∧ b.crop_type = crop_type)).insertionSort
    (fun a b => a.creation_date ≤ b.creation_date)

/-- Python `sum([b['area_estimate'] for b in boundaries if b['area_estimate']])`:
sum over the truthy (present, nonzero) area estimates. -/
def pyTotalArea (boundaries : List Boundary) : ℚ :=
  (boundaries.filterMap
    (fun b => if numTruthy b.area_estimate then b.area_estimate else none)).sum

/-- The `summary_metrics` dictionary built for a linked result. -/
structure SummaryMetrics where
  total_fields : Nat
  total_area_acres : ℚ
  quantity_harvested : ℚ
  harvest_unit : String
  yield_per_acre : Option ℚ
  price_per_unit : ℚ
  total_value : ℚ
deriving DecidableEq

/-- One result dictionary of the linking engine.  The source emits dicts of
varying shape per status; absent keys are modelled by the `none`/`[]`
defaults (the `no_production_data` shape stores its boundary list under a
separate `boundaries` key). -/
structure LinkResult where
  status : String
  farmer_id : String
  crop_type : String
  production_data : Option ProductionData := none
  field_boundaries : List Boundary := []
  boundaries : List Boundary := []
  summary_metrics : Option SummaryMetrics := none
deriving DecidableEq

/-- Source `link_production_to_boundaries(farmer_id, crop_type)`. -/
def link_production_to_boundaries (db : DB) (farmer_id crop_type : String) :
    LinkResult :=
  let production_data := get_crop_production_data db farmer_id crop_type
  let bs := get_field_boundaries_for_crop db farmer_id crop_type
  match production_data with
  | none =>
    { status := "no_production_data", farmer_id := farmer_id,
      crop_type := crop_type, boundaries := bs }
  | some pd =>
    let total_area := pyTotalArea bs
    let yield_per_acre :=
      if 0 < total_area ∧ numTruthy pd.qty_harvested then
        some (pd.qty_harvested.getD 0 / total_area)
      else none
    { status := "linked", farmer_id := farmer_id, crop_type := crop_type,
      production_data := some pd, field_boundaries := bs,
      summary_metrics := some
        { total_fields := bs.length,
          total_area_acres := total_area,
          quantity_harvested := pd.qty_harvested.getD 0,
          harvest_unit := pd.unit.getD "N/A",
          yield_per_acre := yield_per_acre,
          price_per_unit := pd.price_per_unit.getD 0,
          total_value := pd.qty_harvested.getD 0 * pd.price_per_unit.getD 0 } }

/-- The production-side key set of `get_all_farmer_crop_links`: every
`(farmer_id, crop)` with `crop` in a row's `selected_crops`; a row whose
payload fails to parse contributes nothing (`except ...: continue`).
The Python `set` is modelled as a list with membership semantics. -/
def production_combinations (db : DB) : List (String × String) :=
  db.form_responses.flatMap (fun r =>
    match r.form_data with
    | none => []
    | some fd => fd.selected_crops.map (fun c => (r.farmer_id, c)))

/-- The boundary-side key set: `SELECT DISTINCT farmer_id, crop_type`. -/
def boundary_combinations (db : DB) : List (String × String) :=
  db.field_boundaries.map (fun b => (b.farmer_id, b.crop_type))

/-- Union `all_combinations = production_combinations.union(boundary_combinations)`,
modelled as a duplicate-free list. -/
def all_combinations (db : DB) : List (String × String) :=
  (production_combinations db ++ boundary_combinations db).dedup

/-- The body of the `for farmer_id, crop_type in all_combinations` loop of
`get_all_farmer_crop_links`: classify one key. -/
def classifyKey (db : DB) (k : String × String) : LinkResult :=
  if k ∈ production_combinations db ∧ k ∈ boundary_combinations db then
    link_production_to_boundaries db k.1 k.2
  else if k ∈ production_combinations db then
    { status := "production_only", farmer_id := k.1, crop_type := k.2,
      production_data := get_crop_production_data db k.1 k.2,
      field_boundaries := [] }
  else
    { status := "boundaries_only", farmer_id := k.1, crop_type := k.2,
      production_data := none,
      field_boundaries := get_field_boundaries_for_crop db k.1 k.2 }

/-- Source `get_all_farmer_crop_links()`: classify every key of the union. -/
def get_all_farmer_crop_links (db : DB) : List LinkResult :=
  (all_combinations db).map (classifyKey db)

/-! ## Concrete stores used as test inputs -/

/-- The Kava crop slice of the spec's worked example: 30 harvested at price
2 per unit. -/
def kavaSlice : CropFormInfo where
  qty_harvested := some 30
  unit := some "kg"
  price_per_unit := some 2

/-- One production record for farmer `F1` selecting Kava. -/
def kavaResponse : FormResponse where
  farmer_id := "F1"
  form_data := some { selected_crops := ["Kava"], crop_data := [("Kava", kavaSlice)] }
  season_year := "2024/25"
  submission_date := "2025-01-01"

/-- First Kava boundary of farmer `F1`, area 1.0 ha. -/
def kavaBoundary1 : Boundary where
  id := 1
  field_name := "Kava Field 1"
  field_type := "Cropland"
  area_estimate := some 1
  creation_date := 1
  crop_type := "Kava"
  farmer_id := "F1"

/-- Second Kava boundary of farmer `F1`, area 2.0 ha. -/
def kavaBoundary2 : Boundary where
  id := 2
  field_name := "Kava Field 2"
  field_type := "Cropland"
  area_estimate := some 2
  creation_date := 2
  crop_type := "Kava"
  farmer_id := "F1"

/-- The spec's worked example: one production record with
`selected_crops=["Kava"]`, `qty_harvested=30`, and two Kava boundaries of
areas 1.0 and 2.0 for the same farmer. -/
def dbKava : DB where
  form_responses := [kavaResponse]
  field_boundaries := [kavaBoundary1, kavaBoundary2]

/-- A production record whose payload parses but whose `crop_data` lacks the
selected crop. -/
def emptyCropResponse : FormResponse where
  farmer_id := "F2"
  form_data := some { selected_crops := ["Kava"], crop_data := [] }
  season_year := "2024/25"
  submission_date := "2025-01-02"

/-- A Kava boundary for farmer `F2`. -/
def noCropBoundary : Boundary where
  id := 3
  field_name := "Kava Field"
  field_type := "Cropland"
  area_estimate := some 1
  creation_date := 1
  crop_type := "Kava"
  farmer_id := "F2"

/-- A store whose only key occurs on both sides, yet whose production record
carries no `crop_data` entry for the crop. -/
def noCropDB : DB where
  form_responses := [emptyCropResponse]
  field_boundaries := [noCropBoundary]

/-- A production record for farmer `F3` with `qty_harvested = 0`. -/
def kavaZeroResponse : FormResponse where
  farmer_id := "F3"
  form_data := some { selected_crops := ["Kava"],
                      crop_data := [("Kava", { qty_harvested := some 0 })] }
  season_year := "2024/25"
  submission_date := "2025-01-03"

/-- A Kava boundary for farmer `F3`, area 1.0 ha. -/
def kavaZeroBoundary : Boundary where
  id := 4
  field_name := "Kava Field"
  field_type := "Cropland"
  area_estimate := some 1
  creation_date := 1
  crop_type := "Kava"
  farmer_id := "F3"

/-- A linked key whose production slice has `qty_harvested = 0`. -/
def dbKavaZero : DB where
  form_responses := [kavaZeroResponse]
  field_boundaries := [kavaZeroBoundary]

/-- Farmer `F4`'s first stored record: Cocoa only, no Kava slice. -/
def firstNoKava : FormResponse where
  farmer_id := "F4"
  form_data := some { selected_crops := ["Cocoa"], crop_data := [("Cocoa", {})] }
  season_year := "2024/25"
  submission_date := "2025-01-04"

/-- Farmer `F4`'s second stored record: the Kava slice. -/
def secondWithKava : FormResponse where
  farmer_id := "F4"
  form_data := some { selected_crops := ["Kava"], crop_data := [("Kava", kavaSlice)] }
  season_year := "2024/25"
  submission_date := "2025-01-05"

/-- A farmer with two production records where only the LATER one contains
the crop. -/
def dbTwoRecords : DB where
  form_responses := [firstNoKava, secondWithKava]
  field_boundaries := []

/-- A stored record whose payload fails to parse as JSON. -/
def malformedResponse : FormResponse where
  farmer_id := "FX"
  form_data := none
  season_year := "2024/25"
  submission_date := "2025-01-06"

/-- A store holding one malformed record next to a well-formed one. -/
def dbWithMalformed : DB where
  form_responses := [malformedResponse, kavaResponse]
  field_boundaries := []

/-! ## Helper lemmas on the linking engine -/

/-- Every classified result carries its key's farmer and crop. -/
theorem classifyKey_proj (db : DB) (k : String × String) :
    (classifyKey db k).farmer_id = k.1 ∧ (classifyKey db k).crop_type = k.2 := by
  unfold classifyKey
  split_ifs with h1 h2
  · cases hpd : get_crop_production_data db k.1 k.2 <;>
      simp [link_production_to_boundaries, hpd]
  · exact ⟨rfl, rfl⟩
  · exact ⟨rfl, rfl⟩

/-- The truthiness-filtered area sum equals the sum that treats a null
`area_estimate` as 0. -/
theorem pyTotalArea_eq_sum_getD (bs : List Boundary) :
    pyTotalArea bs = (bs.map (fun b => b.area_estimate.getD 0)).sum := by
  induction bs with
  | nil => rfl
  | cons b bs ih =>
    simp only [pyTotalArea, List.filterMap_cons, List.map_cons, List.sum_cons] at ih ⊢
    cases hb : b.area_estimate with
    | none => simpa [numTruthy, hb] using ih
    | some q =>
      by_cases hq : q = 0
      · simpa [numTruthy, hb, hq] using ih
      · simpa [numTruthy, hb, hq] using ih

/-! ## Claims C1, C2, C4, C9 -/

/-- C1 counterexample: a key present in BOTH key sets (farmer `F2` selected
Kava and has a Kava boundary) whose result carries the fourth status
`no_production_data`, because the farmer's first stored record has no Kava
entry in `crop_data`. -/
theorem c1_counterexample_fourth_status :
    (get_all_farmer_crop_links noCropDB).map LinkResult.status =
      ["no_production_data"] ∧
    ("F2", "Kava") ∈ production_combinations noCropDB ∧
    ("F2", "Kava") ∈ boundary_combinations noCropDB := by decide

/-- C1 (amended): every result of `get_all_farmer_crop_links` carries exactly
one of FOUR statuses, characterised by its key's membership in the two key
sets: `linked` when the key is in both sets and the crop slice of the
farmer's first stored record is available; `no_production_data` when the key
is in both sets but that slice is not available; `production_only` and
`boundaries_only` exactly as the claim states. -/
theorem c1_status_classification :
    ∀ (db : DB) (r : LinkResult), r ∈ get_all_farmer_crop_links db →
      ((r.status = "linked" ↔
        (r.farmer_id, r.crop_type) ∈ production_combinations db ∧
        (r.farmer_id, r.crop_type) ∈ boundary_combinations db ∧
        (get_crop_production_data db r.farmer_id r.crop_type).isSome = true) ∧
      (r.status = "no_production_data" ↔
        (r.farmer_id, r.crop_type) ∈ production_combinations db ∧
        (r.farmer_id, r.crop_type) ∈ boundary_combinations db ∧
        get_crop_production_data db r.farmer_id r.crop_type = none) ∧
      (r.status = "production_only" ↔
        (r.farmer_id, r.crop_type) ∈ production_combinations db ∧
        ¬(r.farmer_id, r.crop_type) ∈ boundary_combinations db) ∧
      (r.status = "boundaries_only" ↔
        ¬(r.farmer_id, r.crop_type) ∈ production_combinations db ∧
        (r.farmer_id, r.crop_type) ∈ boundary_combinations db)) := by
  intro db r hr
  rw [get_all_farmer_crop_links, List.mem_map] at hr
  obtain ⟨k, hk, rfl⟩ := hr
  by_cases hp : k ∈ production_combinations db <;>
    by_cases hb : k ∈ boundary_combinations db
  · cases hpd : get_crop_production_data db k.1 k.2 with
    | none => simp [classifyKey, link_production_to_boundaries, hpd, hp, hb]
    | some pd => simp [classifyKey, link_production_to_boundaries, hpd, hp, hb]
  · simp [classifyKey, hp, hb]
  · simp [classifyKey, hp, hb]
  · exfalso
    rw [all_combinations, List.mem_dedup, List.mem_append] at hk
    tauto

/-- A placeholder result used only to take the head of a result list. -/
def blankLinkResult : LinkResult :=
  { status := "", farmer_id := "", crop_type := "" }

/-- C1 witness: on the two-sided-but-sliceless store the classification
applies and yields the `no_production_data` status. -/
theorem c1_witness :
    ((get_all_farmer_crop_links noCropDB).headD blankLinkResult).status =
      "no_production_data" :=
  ((c1_status_classification noCropDB
      ((get_all_farmer_crop_links noCropDB).headD blankLinkResult)
      (by decide)).2.1).mpr (by decide)

/-- C2 counterexample: a linked key with positive total area but
`qty_harvested = 0`: the code leaves `yield_per_acre` null, whereas the claim
demands `qty_harvested / total_area = 0`. -/
theorem c2_counterexample_zero_qty_yield :
    (link_production_to_boundaries dbKavaZero "F3" "Kava").status = "linked" ∧
    (link_production_to_boundaries dbKavaZero "F3" "Kava").summary_metrics.map
      SummaryMetrics.total_area_acres = some 1 ∧
    (link_production_to_boundaries dbKavaZero "F3" "Kava").summary_metrics.map
      SummaryMetrics.yield_per_acre = some none := by
  norm_num [link_production_to_boundaries, get_crop_production_data,
    get_field_boundaries_for_crop, pyTotalArea, dbKavaZero, kavaZeroResponse,
    kavaZeroBoundary, numTruthy, List.insertionSort, List.orderedInsert,
    List.filter, List.find?, List.filterMap]

/-- C2 (amended): for every linked key, `total_fields` counts the boundary
records, `total_area` sums their areas with null as 0, `total_value` is the
qty-price product with missing operands as 0, and `yield_per_acre` equals
`qty_harvested / total_area` when the total area is positive AND
`qty_harvested` is present and nonzero, being null otherwise; the spec's
Kava example (areas 1.0 and 2.0, qty 30) yields linked, 2 fields, area 3.0,
yield 10.0. -/
theorem c2_linked_metrics :
    (∀ (db : DB) (f c : String) (pd : ProductionData),
      get_crop_production_data db f c = some pd →
      (link_production_to_boundaries db f c).status = "linked" ∧
      ∃ m : SummaryMetrics,
        (link_production_to_boundaries db f c).summary_metrics = some m ∧
        m.total_fields = (get_field_boundaries_for_crop db f c).length ∧
        m.total_area_acres =
          ((get_field_boundaries_for_crop db f c).map
            (fun b => b.area_estimate.getD 0)).sum ∧
        (0 < m.total_area_acres ∧ numTruthy pd.qty_harvested →
          m.yield_per_acre = some (pd.qty_harvested.getD 0 / m.total_area_acres)) ∧
        (¬(0 < m.total_area_acres ∧ numTruthy pd.qty_harvested) →
          m.yield_per_acre = none) ∧
        m.total_value = pd.qty_harvested.getD 0 * pd.price_per_unit.getD 0) ∧
    ((link_production_to_boundaries dbKava "F1" "Kava").status = "linked" ∧
      (link_production_to_boundaries dbKava "F1" "Kava").summary_metrics.map
        SummaryMetrics.total_fields = some 2 ∧
      (link_production_to_boundaries dbKava "F1" "Kava").summary_metrics.map
        SummaryMetrics.total_area_acres = some 3 ∧
      (link_production_to_boundaries dbKava "F1" "Kava").summary_metrics.map
        SummaryMetrics.yield_per_acre = some (some 10)) := by
  constructor
  · intro db f c pd hpd
    constructor
    · simp [link_production_to_boundaries, hpd]
    · simp only [link_production_to_boundaries, hpd]
      refine ⟨_, rfl, rfl, pyTotalArea_eq_sum_getD _, ?_, ?_, rfl⟩
      · intro h
        split_ifs with hc
        · rfl
        · exact absurd h hc
      · intro h
        split_ifs with hc
        · exact absurd hc h
        · rfl
  · norm_num [link_production_to_boundaries, get_crop_production_data,
      get_field_boundaries_for_crop, pyTotalArea, dbKava, kavaResponse, kavaSlice,
      kavaBoundary1, kavaBoundary2, numTruthy, List.insertionSort,
      List.orderedInsert, List.filter, List.find?, List.filterMap]

/-- The Kava production slice as returned for farmer `F1`. -/
def kavaProd : ProductionData where
  qty_harvested := some 30
  unit := some "kg"
  price_per_unit := some 2
  season_year := "2024/25"
  submission_date := "2025-01-01"
  farmer_id := "F1"
  crop_type := "Kava"

/-- C2 witness: the amended metric law applied at the concrete Kava store. -/
theorem c2_witness :
    (link_production_to_boundaries dbKava "F1" "Kava").status = "linked" :=
  (c2_linked_metrics.1 dbKava "F1" "Kava" kavaProd (by decide)).1

/-- C4 counterexample: farmer `F4`'s first record has no Kava slice and only
the second one does; `get_crop_production_data` returns `None` instead of the
second record's slice. -/
theorem c4_counterexample_later_record_ignored :
    get_crop_production_data dbTwoRecords "F4" "Kava" = none ∧
    secondWithKava ∈ dbTwoRecords.form_responses ∧
    (secondWithKava.form_data.map
      (fun fd => (fd.crop_data.find? (fun p => p.1 = "Kava")).isSome)) =
      some true := by decide

/-- C4 (amended): the production slice is taken from the FIRST stored record
for the farmer regardless of its content — the result depends only on the
head of the farmer's record list, and if that head fails to parse or lacks
the crop in `crop_data`, the result is `None` even when a later record
contains the crop. -/
theorem c4_first_record_policy :
    (∀ (db1 db2 : DB) (f c : String),
      (db1.form_responses.filter (fun x => x.farmer_id = f)).head? =
        (db2.form_responses.filter (fun x => x.farmer_id = f)).head? →
      get_crop_production_data db1 f c = get_crop_production_data db2 f c) ∧
    (∀ (db : DB) (f c : String) (r : FormResponse) (rest : List FormResponse),
      db.form_responses.filter (fun x => x.farmer_id = f) = r :: rest →
      (r.form_data = none ∨
        ∃ fd, r.form_data = some fd ∧
          fd.crop_data.find? (fun p => p.1 = c) = none) →
      get_crop_production_data db f c = none) := by
  constructor
  · intro db1 db2 f c h
    unfold get_crop_production_data
    rw [h]
  · intro db f c r rest hfil hbad
    unfold get_crop_production_data
    rw [hfil]
    rcases hbad with h | ⟨fd, hfd, hnone⟩
    · simp [h]
    · simp [hfd, hnone]

/-- C4 witness: the first-record policy applied at the two-record store. -/
theorem c4_witness : get_crop_production_data dbTwoRecords "F4" "Kava" = none :=
  c4_first_record_policy.2 dbTwoRecords "F4" "Kava" firstNoKava [secondWithKava]
    (by decide)
    (Or.inr ⟨{ selected_crops := ["Cocoa"], crop_data := [("Cocoa", {})] },
      by decide, by decide⟩)

/-- C9: a stored record whose payload fails to parse contributes nothing to
the production-side key derivation, and reconciliation still completes over
all remaining records — every crop selected by any well-formed record gets a
result (the embedding is total, so no exception can propagate). -/
theorem c9_malformed_record_skipped :
    (∀ (pre post : List FormResponse) (fb : List Boundary) (r : FormResponse),
      r.form_data = none →
      production_combinations
        { form_responses := pre ++ r :: post, field_boundaries := fb } =
      production_combinations
        { form_responses := pre ++ post, field_boundaries := fb }) ∧
    (∀ (db : DB) (r : FormResponse) (fd : FormPayload) (c : String),
      r ∈ db.form_responses → r.form_data = some fd → c ∈ fd.selected_crops →
      ∃ res ∈ get_all_farmer_crop_links db,
        res.farmer_id = r.farmer_id ∧ res.crop_type = c) := by
  constructor
  · intro pre post fb r h
    simp [production_combinations, h]
  · intro db r fd c hr hfd hc
    have hk : (r.farmer_id, c) ∈ production_combinations db := by
      rw [production_combinations, List.mem_flatMap]
      exact ⟨r, hr, by rw [hfd]; exact List.mem_map.mpr ⟨c, hc, rfl⟩⟩
    have hall : (r.farmer_id, c) ∈ all_combinations db := by
      rw [all_combinations, List.mem_dedup]
      exact List.mem_append_left _ hk
    exact ⟨classifyKey db (r.farmer_id, c),
      List.mem_map.mpr ⟨(r.farmer_id, c), hall, rfl⟩,
      (classifyKey_proj db (r.farmer_id, c)).1,
      (classifyKey_proj db (r.farmer_id, c)).2⟩

/-- C9 witness: with a malformed record stored next to the Kava record, the
key derivation is unchanged and the Kava key still gets a result. -/
theorem c9_witness :
    production_combinations dbWithMalformed =
      production_combinations
        { form_responses := [kavaResponse], field_boundaries := [] } ∧
    ∃ res ∈ get_all_farmer_crop_links dbWithMalformed,
      res.farmer_id = "F1" ∧ res.crop_type = "Kava" :=
  ⟨c9_malformed_record_skipped.1 [] [kavaResponse] [] malformedResponse rfl,
   c9_malformed_record_skipped.2 dbWithMalformed kavaResponse
     { selected_crops := ["Kava"], crop_data := [("Kava", kavaSlice)] } "Kava"
     (by decide) (by decide) (by decide)⟩

/-! ## Geometry engine: `calculate_polygon_area_hectares`
(`pages/1_Register_Crops.py`).  The source computes over Python floats with
`math.cos`; it is modelled over `ℝ` (float rounding is not modelled), so
these definitions are noncomputable. -/

/-- Python `math.radians(x)`. -/
noncomputable def radians (x : ℝ) : ℝ := x * Real.pi / 180

/-- The `for i in range(n)` shoelace accumulation with `j = (i + 1) % n`. -/
noncomputable def shoelaceSum (coords : List (ℝ × ℝ)) : ℝ :=
  ∑ i ∈ Finset.range coords.length,
    ((coords.getD i (0, 0)).1 * (coords.getD ((i + 1) % coords.length) (0, 0)).2 -
      (coords.getD ((i + 1) % coords.length) (0, 0)).1 * (coords.getD i (0, 0)).2)

/-- Source `calculate_polygon_area_hectares(coords)`: 0 for fewer than 3 points,
otherwise the absolute shoelace sum halved (square degrees), scaled by
111000 m per degree latitude and 111000·cos(radians(mean latitude)) m per
degree longitude, divided by 10000. -/
noncomputable def calculate_polygon_area_hectares (coords : List (ℝ × ℝ)) : ℝ :=
  if coords.length < 3 then 0
  else
    let area_sq_degrees := |shoelaceSum coords| / 2
    let lat_avg := (coords.map Prod.snd).sum / coords.length
    let meters_per_degree_lat : ℝ := 111000
    let meters_per_degree_lng : ℝ := 111000 * Real.cos (radians lat_avg)
    area_sq_degrees * meters_per_degree_lat * meters_per_degree_lng / 10000

/-- The cross term contributed by one directed edge of the ring. -/
noncomputable def edgeCross (pq : (ℝ × ℝ) × (ℝ × ℝ)) : ℝ :=
  pq.1.1 * pq.2.2 - pq.2.1 * pq.1.2

/-- Modelled from the spec (section 4.1): the shoelace sum taken over the
ring's consecutive-pair edges (each point paired with its cyclic successor),
in absolute value and halved, converted with the fixed latitude scale. -/
noncomputable def estimate_area_hectares_spec (coords : List (ℝ × ℝ)) : ℝ :=
  if coords.length < 3 then 0
  else
    |((coords.zip (coords.rotate 1)).map edgeCross).sum| / 2 * 111000 *
      (111000 *
        Real.cos (radians ((coords.map Prod.snd).sum / coords.length))) / 10000

/-! ## Shoelace-sum support lemmas -/

/-- A mapped list sum as a sum over index positions. -/
theorem list_map_sum_eq_range {α β : Type} [AddCommMonoid β] (l : List α)
    (g : α → β) (d : α) :
    (l.map g).sum = ∑ i ∈ Finset.range l.length, g (l.getD i d) := by
  induction l with
  | nil => simp
  | cons x xs ih =>
    rw [List.map_cons, List.sum_cons, List.length_cons, Finset.sum_range_succ']
    simp only [List.getD_cons_succ, List.getD_cons_zero]
    rw [ih]
    exact add_comm _ _

/-- The range-indexed shoelace sum equals the sum over the zipped edge list. -/
theorem shoelaceSum_eq_edges (l : List (ℝ × ℝ)) :
    shoelaceSum l = ((l.zip (l.rotate 1)).map edgeCross).sum := by
  rw [list_map_sum_eq_range (l.zip (l.rotate 1)) edgeCross ((0, 0), (0, 0))]
  have hlen : (l.zip (l.rotate 1)).length = l.length := by
    simp [List.length_zip, List.length_rotate]
  rw [hlen]
  unfold shoelaceSum
  apply Finset.sum_congr rfl
  intro i hi
  rw [Finset.mem_range] at hi
  have hpos : 0 < l.length := Nat.lt_of_le_of_lt (Nat.zero_le i) hi
  have hmod : (i + 1) % l.length < l.length := Nat.mod_lt _ hpos
  have hzi : i < (l.zip (l.rotate 1)).length := by rw [hlen]; exact hi
  rw [List.getD_eq_getElem _ _ hzi, List.getElem_zip, List.getD_eq_getElem _ _ hi,
    List.getD_eq_getElem _ _ hmod]
  unfold edgeCross
  simp [List.getElem_rotate]

/-- Rotation commutes with zipping equal-length lists. -/
theorem zip_rotate {α β : Type} (a : List α) (b : List β) (n : ℕ)
    (h : a.length = b.length) :
    (a.rotate n).zip (b.rotate n) = (a.zip b).rotate n := by
  apply List.ext_getElem
  · simp [List.length_zip, List.length_rotate, h]
  · intro i h1 h2
    have hz : (a.zip b).length = a.length := by simp [List.length_zip, h]
    simp only [List.getElem_zip, List.getElem_rotate, hz, h]

/-- The shoelace sum is invariant under ring rotation. -/
theorem shoelaceSum_rotate (l : List (ℝ × ℝ)) (n : ℕ) :
    shoelaceSum (l.rotate n) = shoelaceSum l := by
  rw [shoelaceSum_eq_edges, shoelaceSum_eq_edges]
  have h1 : (l.rotate n).rotate 1 = (l.rotate 1).rotate n := by
    rw [List.rotate_rotate, List.rotate_rotate, Nat.add_comm]
  rw [h1, zip_rotate l (l.rotate 1) n (by rw [List.length_rotate])]
  exact (((l.zip (l.rotate 1)).rotate_perm n).map edgeCross).sum_eq

/-- The edge list of the reversed ring is a rotation of the reversed,
component-swapped edge list. -/
theorem zip_reverse_rotate (l : List (ℝ × ℝ)) :
    l.reverse.zip (l.reverse.rotate 1) =
      ((l.zip (l.rotate 1)).map Prod.swap).reverse.rotate 1 := by
  apply List.ext_getElem
  · simp [List.length_zip, List.length_rotate, List.length_reverse]
  · intro i h1 h2
    have hn : i < l.length := by
      simpa [List.length_zip, List.length_rotate, List.length_reverse] using h1
    have hpos : 0 < l.length := Nat.lt_of_le_of_lt (Nat.zero_le i) hn
    simp only [List.getElem_zip, List.getElem_rotate, List.getElem_reverse,
      List.getElem_map, List.length_zip, List.length_rotate, List.length_reverse,
      List.length_map, min_self, Prod.swap]
    rcases Nat.lt_or_ge (i + 1) l.length with hlt | hge
    · have e1 : (i + 1) % l.length = i + 1 := Nat.mod_eq_of_lt hlt
      have e2 : (l.length - 1 - (i + 1) + 1) % l.length = l.length - 1 - i := by
        have : l.length - 1 - (i + 1) + 1 = l.length - 1 - i := by omega
        rw [this]
        exact Nat.mod_eq_of_lt (by omega)
      simp only [e1, e2]
    · have hieq : i + 1 = l.length := by omega
      have e1 : (i + 1) % l.length = 0 := by rw [hieq, Nat.mod_self]
      have e2 : (l.length - 1 - 0 + 1) % l.length = 0 := by
        have : l.length - 1 - 0 + 1 = l.length := by omega
        rw [this, Nat.mod_self]
      have e3 : l.length - 1 - i = 0 := by omega
      simp only [e1, e2, e3]

/-- Reversing the ring negates the shoelace sum. -/
theorem shoelaceSum_reverse (l : List (ℝ × ℝ)) :
    shoelaceSum l.reverse = -shoelaceSum l := by
  rw [shoelaceSum_eq_edges, shoelaceSum_eq_edges, zip_reverse_rotate]
  have hperm :
      ((((l.zip (l.rotate 1)).map Prod.swap).reverse.rotate 1).map edgeCross).Perm
        (((l.zip (l.rotate 1)).map Prod.swap).map edgeCross) :=
    ((((l.zip (l.rotate 1)).map Prod.swap).reverse.rotate_perm 1).trans
      ((l.zip (l.rotate 1)).map Prod.swap).reverse_perm).map edgeCross
  rw [hperm.sum_eq, List.map_map]
  have hneg : edgeCross ∘ Prod.swap = fun e => -edgeCross e := by
    funext e
    simp only [Function.comp_apply, edgeCross, Prod.fst_swap, Prod.snd_swap]
    ring
  rw [hneg]
  have : (fun e => -edgeCross e) = (fun x : ℝ => -x) ∘ edgeCross := rfl
  rw [this, ← List.map_map]
  exact ((l.zip (l.rotate 1)).map edgeCross).sum_neg.symm

/-! ## Claims C3 and C10 -/

/-- C3: rings of fewer than 3 points give exactly 0; rings of at least 3
points whose latitudes are in range give a non-negative value equal to the
spec formula — the absolute consecutive-pair shoelace sum halved, times
111000, times 111000·cos of the arithmetic mean latitude in radians, divided
by 10000. -/
theorem c3_area_formula :
    (∀ coords : List (ℝ × ℝ), coords.length < 3 →
      calculate_polygon_area_hectares coords = 0) ∧
    (∀ coords : List (ℝ × ℝ), 3 ≤ coords.length →
      (∀ p ∈ coords, -90 ≤ p.2 ∧ p.2 ≤ 90) →
      0 ≤ calculate_polygon_area_hectares coords ∧
      calculate_polygon_area_hectares coords = estimate_area_hectares_spec coords) := by
  constructor
  · intro coords h
    unfold calculate_polygon_area_hectares
    rw [if_pos h]
  · intro coords hlen hlat
    have hnl : ¬ coords.length < 3 := Nat.not_lt.mpr hlen
    have hpos : (0 : ℝ) < (coords.length : ℝ) := by
      have h0 : 0 < coords.length := by omega
      exact_mod_cast h0
    have hub : (coords.map Prod.snd).sum ≤ (coords.length : ℝ) * 90 := by
      have hb : ∀ x ∈ coords.map Prod.snd, x ≤ 90 := by
        intro x hx
        rw [List.mem_map] at hx
        obtain ⟨p, hp, rfl⟩ := hx
        exact (hlat p hp).2
      have h := List.sum_le_card_nsmul (coords.map Prod.snd) 90 hb
      simpa [nsmul_eq_mul, List.length_map] using h
    have hlb : -((coords.length : ℝ) * 90) ≤ (coords.map Prod.snd).sum := by
      have hb : ∀ x ∈ coords.map Prod.snd, -90 ≤ x := by
        intro x hx
        rw [List.mem_map] at hx
        obtain ⟨p, hp, rfl⟩ := hx
        exact (hlat p hp).1
      have h := List.card_nsmul_le_sum (coords.map Prod.snd) (-90) hb
      have h2 : ((coords.map Prod.snd).length : ℝ) * (-90) ≤ (coords.map Prod.snd).sum := by
        simpa [nsmul_eq_mul] using h
      rw [List.length_map] at h2
      linarith
    have havg_ub : (coords.map Prod.snd).sum / (coords.length : ℝ) ≤ 90 := by
      rw [div_le_iff₀ hpos]
      linarith
    have havg_lb : -90 ≤ (coords.map Prod.snd).sum / (coords.length : ℝ) := by
      rw [le_div_iff₀ hpos]
      linarith
    have hcos :
        0 ≤ Real.cos (radians ((coords.map Prod.snd).sum / (coords.length : ℝ))) := by
      apply Real.cos_nonneg_of_mem_Icc
      rw [Set.mem_Icc]
      unfold radians
      constructor
      · have h1 : 0 ≤ ((coords.map Prod.snd).sum / (coords.length : ℝ) + 90) * Real.pi :=
          mul_nonneg (by linarith) Real.pi_pos.le
        nlinarith [h1]
      · have h1 : 0 ≤ (90 - (coords.map Prod.snd).sum / (coords.length : ℝ)) * Real.pi :=
          mul_nonneg (by linarith) Real.pi_pos.le
        nlinarith [h1]
    constructor
    · simp only [calculate_polygon_area_hectares, hnl, if_false]
      refine div_nonneg
        (mul_nonneg
          (mul_nonneg (div_nonneg (abs_nonneg _) (by norm_num)) (by norm_num))
          (mul_nonneg (by norm_num) hcos))
        (by norm_num)
    · simp only [calculate_polygon_area_hectares, estimate_area_hectares_spec, hnl,
        if_false, shoelaceSum_eq_edges]

/-- A concrete right-triangle ring at the equator. -/
def triangleRing : List (ℝ × ℝ) := [(0, 0), (1, 0), (0, 1)]

/-- C3 witness: the area formula evaluated at a concrete 3-point ring. -/
theorem c3_witness :
    0 ≤ calculate_polygon_area_hectares triangleRing ∧
    calculate_polygon_area_hectares triangleRing =
      estimate_area_hectares_spec triangleRing :=
  c3_area_formula.2 triangleRing (by decide)
    (by
      intro p hp
      simp only [triangleRing, List.mem_cons, List.not_mem_nil, or_false] at hp
      rcases hp with rfl | rfl | rfl <;> norm_num)

/-- C10: re-presenting the same closed ring — any cyclic rotation of the
point list, or the list in reversed order — never changes the computed area:
the shoelace indices are taken modulo the length and only the absolute value
is used, and the mean latitude is permutation-invariant. -/
theorem c10_area_ring_invariance :
    ∀ (coords : List (ℝ × ℝ)) (n : ℕ),
      calculate_polygon_area_hectares (coords.rotate n) =
        calculate_polygon_area_hectares coords ∧
      calculate_polygon_area_hectares coords.reverse =
        calculate_polygon_area_hectares coords := by
  intro coords n
  have hsnd_rot : ((coords.rotate n).map Prod.snd).sum = (coords.map Prod.snd).sum :=
    ((coords.rotate_perm n).map Prod.snd).sum_eq
  have hsnd_rev : (coords.reverse.map Prod.snd).sum = (coords.map Prod.snd).sum :=
    (coords.reverse_perm.map Prod.snd).sum_eq
  constructor
  · simp only [calculate_polygon_area_hectares, List.length_rotate,
      shoelaceSum_rotate, hsnd_rot]
  · simp only [calculate_polygon_area_hectares, List.length_reverse,
      shoelaceSum_reverse, abs_neg, hsnd_rev]
